import Mathlib

/-!
Shallow embedding of the attendance backend in
src/Hackathon2026-main/frontend/backend/app.py.

The three SQLite tables (users, events, attendance) are modelled as Lean
lists of rows; each Flask route handler becomes a pure function from the
database state (plus the session's user id / role and the request data) to
either a typed error or a new database state.  JSON request fields that may
be absent are modelled as Option values; fields whose handlers only test
Python truthiness are modelled as String with the empty string playing the
role of both the missing and the empty value, exactly where the handler
treats them alike.  Fresh identifiers and timestamps, generated in app.py
from the clock and os.urandom, are passed in as explicit arguments.
SQLite PRIMARY KEY / UNIQUE violations raise an exception that each handler
catches and turns into a 500 response without committing, so they are
modelled as an internalError result leaving the state unchanged.
Python's str.lower is modelled by lowerStr below, which lowercases the
basic latin letters, the only ones the relevant comparisons exercise.
-/

namespace Hack

/-- Row of the users table, as created by init_db in app.py. -/
structure User where
  id : String
  student_id : Option String
  first_name : String
  last_name : String
  email : String
  password : String
  role : String
  status : String
  profile_photo : Option String
  qr_code : Option String
  created_at : String
deriving Repr, DecidableEq

/-- Row of the events table. -/
structure Event where
  id : String
  name : String
  description : String
  date : String
  start_time : String
  end_time : String
  status : String
  created_at : String
deriving Repr, DecidableEq

/-- Row of the attendance table. -/
structure AttendanceRecord where
  id : String
  event_id : String
  student_id : String
  student_name : String
  student_photo : Option String
  timestamp : String
deriving Repr, DecidableEq

/-- The whole database state: the three tables of app.py. -/
structure DB where
  users : List User
  events : List Event
  attendance : List AttendanceRecord
deriving Repr, DecidableEq

/-- Error taxonomy of the handlers, by the HTTP code each jsonify return
uses in app.py; the string is the message placed in the error field. -/
inductive ApiError where
  | validationError (msg : String)
  | authError (msg : String)
  | authzError (msg : String)
  | notFoundError (msg : String)
  | conflictError (msg : String)
  | internalError (msg : String)
deriving Repr, DecidableEq

/-- HTTP status code attached to each error in app.py. -/
def ApiError.code : ApiError → Nat
  | .validationError _ => 400
  | .authError _ => 401
  | .authzError _ => 403
  | .notFoundError _ => 404
  | .conflictError _ => 409
  | .internalError _ => 500

/-- ASCII lowering of one character, as Python's str.lower acts on the
basic latin range; this is core's Char.toLower. -/
def lowerChar (c : Char) : Char := Char.toLower c

/-- Model of Python's str.lower: lowercase every character. -/
def lowerStr (s : String) : String := String.mk (s.data.map lowerChar)

/-- Request body of POST /api/auth/register. -/
structure RegisterInput where
  student_id : String
  first_name : String
  last_name : String
  email : String
  password : String
deriving Repr, DecidableEq

/-- Handler register in app.py: field presence checks in source order,
password length check, duplicate email (input lowercased) and duplicate
student_id checks, then the INSERT of a pending student row.  new_id and
now stand for the generated id and datetime.now().isoformat(). -/
def register (db : DB) (inp : RegisterInput) (new_id now : String) : Except ApiError DB :=
  if inp.student_id = "" then .error (.validationError ("Missing required field: student_id"))
  else if inp.first_name = "" then .error (.validationError ("Missing required field: first_name"))
  else if inp.last_name = "" then .error (.validationError ("Missing required field: last_name"))
  else if inp.email = "" then .error (.validationError ("Missing required field: email"))
  else if inp.password = "" then .error (.validationError ("Missing required field: password"))
  else if inp.password.length < 6 then
    .error (.validationError ("Password must be at least 6 characters"))
  else if (db.users.find? (fun u => u.email = lowerStr inp.email)).isSome then
    .error (.conflictError ("Email already registered"))
  else if (db.users.find? (fun u => u.student_id = some inp.student_id)).isSome then
    .error (.conflictError ("Student ID already registered"))
  else if (db.users.find? (fun u => u.id = new_id)).isSome then
    .error (.internalError ("UNIQUE constraint failed: users.id"))
  else .ok { db with users := db.users ++ [{
    id := new_id,
    student_id := some inp.student_id,
    first_name := inp.first_name,
    last_name := inp.last_name,
    email := lowerStr inp.email,
    password := inp.password,
    role := "student",
    status := "pending",
    profile_photo := none,
    qr_code := none,
    created_at := now }] }

/-- Public projection returned by login in app.py (all columns except
password and created_at). -/
structure UserPublic where
  id : String
  student_id : Option String
  first_name : String
  last_name : String
  email : String
  role : String
  status : String
  profile_photo : Option String
  qr_code : Option String
deriving Repr, DecidableEq

/-- Projection returned by get_user in app.py (all columns except
password). -/
structure UserProfile where
  id : String
  student_id : Option String
  first_name : String
  last_name : String
  email : String
  role : String
  status : String
  profile_photo : Option String
  qr_code : Option String
  created_at : String
deriving Repr, DecidableEq

/-- The user_data dictionary built by login. -/
def toPublic (u : User) : UserPublic :=
  { id := u.id, student_id := u.student_id, first_name := u.first_name,
    last_name := u.last_name, email := u.email, role := u.role,
    status := u.status, profile_photo := u.profile_photo, qr_code := u.qr_code }

/-- The user_data dictionary built by get_user. -/
def toProfile (u : User) : UserProfile :=
  { id := u.id, student_id := u.student_id, first_name := u.first_name,
    last_name := u.last_name, email := u.email, role := u.role,
    status := u.status, profile_photo := u.profile_photo, qr_code := u.qr_code,
    created_at := u.created_at }

/-- Handler login in app.py: lowercases the supplied email, requires both
fields truthy, then looks a row up by exact email and password match. -/
def login (db : DB) (email password : String) : Except ApiError UserPublic :=
  if lowerStr email = "" ∨ password = "" then
    .error (.validationError ("Email and password required"))
  else match db.users.find? (fun u => u.email = lowerStr email ∧ u.password = password) with
    | none => .error (.authError ("Invalid credentials"))
    | some u => .ok (toPublic u)

/-- Handler get_user in app.py: a user may read their own row, an admin
any row; 404 when the id matches no row. -/
def get_user (session_user session_role : Option String) (db : DB) (user_id : String) :
    Except ApiError UserProfile :=
  if session_user ≠ some user_id ∧ session_role ≠ some ("admin") then
    .error (.authzError ("Unauthorized"))
  else match db.users.find? (fun u => u.id = user_id) with
    | none => .error (.notFoundError ("User not found"))
    | some u => .ok (toProfile u)

/-- Request body of PUT /api/users/id: each key may be absent. -/
structure UserPatch where
  first_name : Option String
  last_name : Option String
  email : Option String
  password : Option String
  profile_photo : Option String
deriving Repr, DecidableEq

/-- Whether update_user's update_fields list is nonempty: a supplied
password shorter than 6 characters contributes nothing. -/
def presentFields (p : UserPatch) : Bool :=
  p.first_name.isSome || p.last_name.isSome || p.email.isSome ||
    (match p.password with
      | some pw => decide (6 ≤ pw.length)
      | none => false) ||
    p.profile_photo.isSome

/-- Effect of update_user's dynamic UPDATE on one row: supplied fields are
written (email lowercased, short passwords dropped), the rest kept. -/
def applyPatch (p : UserPatch) (u : User) : User :=
  { u with
    first_name := match p.first_name with | some v => v | none => u.first_name,
    last_name := match p.last_name with | some v => v | none => u.last_name,
    email := match p.email with | some v => lowerStr v | none => u.email,
    password := match p.password with
      | some pw => if 6 ≤ pw.length then pw else u.password
      | none => u.password,
    profile_photo := match p.profile_photo with | some v => some v | none => u.profile_photo }

/-- Handler update_user in app.py: self or admin only; 400 when no field
survives; the UNIQUE constraint on users.email turns an update that would
copy another row's email into an uncommitted 500. -/
def update_user (session_user session_role : Option String) (db : DB) (user_id : String)
    (p : UserPatch) : Except ApiError DB :=
  if session_user ≠ some user_id ∧ session_role ≠ some ("admin") then
    .error (.authzError ("Unauthorized"))
  else if presentFields p = false then .error (.validationError ("No fields to update"))
  else if (match p.email with
      | some e => db.users.any (fun u => u.id = user_id) &&
          db.users.any (fun u => ¬ u.id = user_id ∧ u.email = lowerStr e)
      | none => false) then
    .error (.internalError ("UNIQUE constraint failed: users.email"))
  else .ok { db with users := db.users.map (fun u =>
    if u.id = user_id then applyPatch p u else u) }

/-- Handler delete_user in app.py: admin only; deletes the user's
attendance rows, then the user row; always answers 200. -/
def delete_user (session_role : Option String) (db : DB) (user_id : String) :
    Except ApiError DB :=
  if session_role ≠ some ("admin") then .error (.authzError ("Unauthorized"))
  else .ok { db with
    users := db.users.filter (fun u => ¬ u.id = user_id),
    attendance := db.attendance.filter (fun r => ¬ r.student_id = user_id) }

/-- Handler verify_user in app.py: admin only; 400 on a missing or empty
qr_code; then an unconditional UPDATE setting status and qr_code on the
row with the given id — no check that such a row exists. -/
def verify_user (session_role : Option String) (db : DB) (user_id : String)
    (qr_code : Option String) : Except ApiError DB :=
  if session_role ≠ some ("admin") then .error (.authzError ("Unauthorized"))
  else match qr_code with
    | none => .error (.validationError ("QR code required"))
    | some qr =>
      if qr = "" then .error (.validationError ("QR code required"))
      else .ok { db with users := db.users.map (fun u =>
        if u.id = user_id then { u with status := "verified", qr_code := some qr } else u) }

/-- Handler update_user_role in app.py: admin only; the new role must be
student or admin; then an unconditional UPDATE of the role column. -/
def update_user_role (session_role : Option String) (db : DB) (user_id new_role : String) :
    Except ApiError DB :=
  if session_role ≠ some ("admin") then .error (.authzError ("Unauthorized"))
  else if ¬ new_role = "student" ∧ ¬ new_role = "admin" then
    .error (.validationError ("Invalid role"))
  else .ok { db with users := db.users.map (fun u =>
    if u.id = user_id then { u with role := new_role } else u) }

/-- Handler delete_event in app.py: admin only; deletes the event's
attendance rows, then the event row; always answers 200. -/
def delete_event (session_role : Option String) (db : DB) (event_id : String) :
    Except ApiError DB :=
  if session_role ≠ some ("admin") then .error (.authzError ("Unauthorized"))
  else .ok { db with
    events := db.events.filter (fun e => ¬ e.id = event_id),
    attendance := db.attendance.filter (fun r => ¬ r.event_id = event_id) }

/-- Python truthiness of an optional query parameter. -/
def truthy : Option String → Bool
  | none => false
  | some s => ¬ s = ""

/-- Descending timestamp comparison used to model ORDER BY timestamp DESC
over the TEXT column. -/
def tsDesc (a b : AttendanceRecord) : Bool := b.timestamp ≤ a.timestamp

/-- Handler get_attendance in app.py: a truthy event_id parameter selects
by event (the student_id parameter is then never consulted), else a truthy
student_id selects by student, else all rows; ordered by timestamp
descending. -/
def get_attendance (db : DB) (event_id student_id : Option String) :
    List AttendanceRecord :=
  let rows :=
    if truthy event_id then db.attendance.filter (fun r => some r.event_id = event_id)
    else if truthy student_id then db.attendance.filter (fun r => some r.student_id = student_id)
    else db.attendance
  rows.mergeSort tsDesc

/-- Handler mark_attendance in app.py: admin only; both ids must be
truthy; 409 when a row for the pair exists; 404 when the student id
matches no user row or a row whose status is not verified; otherwise
inserts a row snapshotting the student's name and photo.  new_id and now
stand for the generated id and datetime.now().isoformat(). -/
def mark_attendance (session_role : Option String) (db : DB)
    (event_id student_id : String) (new_id now : String) : Except ApiError DB :=
  if session_role ≠ some ("admin") then .error (.authzError ("Unauthorized"))
  else if event_id = "" ∨ student_id = "" then
    .error (.validationError ("Event ID and Student ID required"))
  else if (db.attendance.find? (fun r => r.event_id = event_id ∧ r.student_id = student_id)).isSome then
    .error (.conflictError ("Attendance already marked"))
  else match db.users.find? (fun u => u.id = student_id) with
    | none => .error (.notFoundError ("Student not found or not verified"))
    | some student =>
      if ¬ student.status = "verified" then
        .error (.notFoundError ("Student not found or not verified"))
      else if (db.attendance.find? (fun r => r.id = new_id)).isSome then
        .error (.internalError ("UNIQUE constraint failed: attendance.id"))
      else .ok { db with attendance := db.attendance ++ [{
        id := new_id,
        event_id := event_id,
        student_id := student_id,
        student_name := student.first_name ++ " " ++ student.last_name,
        student_photo := student.profile_photo,
        timestamp := now }] }

/-- Handler delete_attendance in app.py: admin only; an unconditional
DELETE by id, answering 200 whether or not a row matched. -/
def delete_attendance (session_role : Option String) (db : DB) (attendance_id : String) :
    Except ApiError DB :=
  if session_role ≠ some ("admin") then .error (.authzError ("Unauthorized"))
  else .ok { db with attendance := db.attendance.filter (fun r => ¬ r.id = attendance_id) }

/-- Stored emails are lowercase, the invariant the lowercasing writes of
app.py maintain. -/
def emailsLowercase (db : DB) : Prop := ∀ u ∈ db.users, lowerStr u.email = u.email

/-- Every attendance row points at a stored user whose status is
verified; mark_attendance establishes it and every deletion preserves
it. -/
def attendanceVerified (db : DB) : Prop :=
  ∀ r ∈ db.attendance, ∃ u ∈ db.users, u.id = r.student_id ∧ u.status = "verified"

/-- Sortedness by descending timestamp. -/
def tsSorted (l : List AttendanceRecord) : Prop :=
  List.Pairwise (fun a b => b.timestamp ≤ a.timestamp) l

instance (db : DB) : Decidable (emailsLowercase db) :=
  inferInstanceAs (Decidable (∀ u ∈ db.users, lowerStr u.email = u.email))

instance (db : DB) : Decidable (attendanceVerified db) :=
  inferInstanceAs (Decidable (∀ r ∈ db.attendance, ∃ u ∈ db.users,
    u.id = r.student_id ∧ u.status = "verified"))

/-- The empty database. -/
def dbEmpty : DB := { users := [], events := [], attendance := [] }

/-- A pending student row, used as concrete test data. -/
def uPending : User :=
  { id := "u1", student_id := some ("S1"), first_name := "Ada", last_name := "Lee",
    email := "a@x.com", password := "secret1", role := "student", status := "pending",
    profile_photo := none, qr_code := none, created_at := "t0" }

/-- A verified student row, used as concrete test data. -/
def uVerified : User :=
  { id := "u2", student_id := some ("S2"), first_name := "Bo", last_name := "Kim",
    email := "b@x.com", password := "secret2", role := "student", status := "verified",
    profile_photo := none, qr_code := some ("QR2"), created_at := "t0" }

/-- A database holding the two test users and no attendance. -/
def dbTwo : DB := { users := [uPending, uVerified], events := [], attendance := [] }

/-- A concrete attendance row for event e1 and student u2. -/
def recA1 : AttendanceRecord :=
  { id := "a1", event_id := "e1", student_id := "u2", student_name := "Bo Kim",
    student_photo := none, timestamp := "2024-01-01T10:00:00" }

/-- A concrete attendance row for event e2 and student u2. -/
def recA2 : AttendanceRecord :=
  { id := "a2", event_id := "e2", student_id := "u2", student_name := "Bo Kim",
    student_photo := none, timestamp := "2024-02-01T10:00:00" }

/-- A database with one verified student and two attendance rows. -/
def dbAtt : DB := { users := [uVerified], events := [], attendance := [recA1, recA2] }

/-- Database dbAtt after the cascade deletion of event e1. -/
def dbAttNoE1 : DB :=
  { users := [uVerified], events := [], attendance := [recA2] }

/-- Database dbTwo after the admin verifies user u1 with code QR1. -/
def dbTwoVerified : DB :=
  { users := [{ uPending with status := "verified", qr_code := some ("QR1") }, uVerified],
    events := [], attendance := [] }

theorem toNat_ofNat_of_valid (n : Nat) (h : n.isValidChar) : (Char.ofNat n).toNat = n := by
  simp [Char.ofNat, dif_pos h, Char.ofNatAux, Char.toNat, UInt32.toNat]

theorem lowerChar_idem (c : Char) : lowerChar (lowerChar c) = lowerChar c := by
  unfold lowerChar Char.toLower
  by_cases h : c.toNat ≥ 65 ∧ c.toNat ≤ 90
  · rw [if_pos h]
    have hv : (c.toNat + 32).isValidChar := Or.inl (by omega)
    rw [if_neg]
    rw [toNat_ofNat_of_valid _ hv]
    omega
  · rw [if_neg h, if_neg h]

theorem map_lowerChar_idem (l : List Char) :
    (l.map lowerChar).map lowerChar = l.map lowerChar := by
  rw [List.map_map]
  exact List.map_congr_left (fun c _ => lowerChar_idem c)

theorem lowerStr_idem (s : String) : lowerStr (lowerStr s) = lowerStr s :=
  congrArg String.mk (map_lowerChar_idem s.data)

/-- C3 counterexample: in the empty database, user id u1 resolves to no
stored User, yet an admin call to verify_user with a non-empty qr_code
answers 200 with the database unchanged — it does not fail with
NotFoundError, contrary to the claim. -/
theorem verify_user_unknown_succeeds_cex :
    verify_user (some ("admin")) dbEmpty ("u1") (some ("QR1")) = Except.ok dbEmpty ∧
    ∀ m, verify_user (some ("admin")) dbEmpty ("u1") (some ("QR1")) ≠
      Except.error (ApiError.notFoundError m) :=
  ⟨rfl, fun _ h => nomatch h⟩

/-- C3 amended: an admin call to verify_user with a non-empty qr_code
always succeeds; every stored User whose id matches gets status verified
with the qr_code stored, every other User row is kept, the other tables
are untouched, and when user_id resolves to no stored User the database
is unchanged (no NotFoundError is raised). -/
theorem verify_user_sets_verified (db : DB) (uid qr : String) (hqr : ¬ qr = "") :
    (∃ db1, verify_user (some ("admin")) db uid (some qr) = .ok db1) ∧
    (∀ db1, verify_user (some ("admin")) db uid (some qr) = .ok db1 →
      ((∀ u ∈ db.users, u.id = uid →
          { u with status := "verified", qr_code := some qr } ∈ db1.users) ∧
       (∀ u ∈ db.users, ¬ u.id = uid → u ∈ db1.users) ∧
       db1.events = db.events ∧ db1.attendance = db.attendance ∧
       ((∀ u ∈ db.users, ¬ u.id = uid) → db1 = db))) := by
  have hrun : verify_user (some ("admin")) db uid (some qr) =
      .ok { db with users := db.users.map (fun u =>
        if u.id = uid then { u with status := "verified", qr_code := some qr } else u) } := by
    simp [verify_user, hqr]
  refine ⟨⟨_, hrun⟩, fun db1 h1 => ?_⟩
  rw [hrun] at h1
  injection h1 with h1
  subst h1
  refine ⟨fun u hu hid => ?_, fun u hu hid => ?_, rfl, rfl, fun hall => ?_⟩
  · have h2 := List.mem_map_of_mem
      (fun u => if u.id = uid then { u with status := "verified", qr_code := some qr } else u) hu
    simp only [if_pos hid] at h2
    exact h2
  · have h2 := List.mem_map_of_mem
      (fun u => if u.id = uid then { u with status := "verified", qr_code := some qr } else u) hu
    simp only [if_neg hid] at h2
    exact h2
  · have hmap : db.users.map (fun u =>
        if u.id = uid then { u with status := "verified", qr_code := some qr } else u) =
        db.users := by
      rw [List.map_congr_left (fun u hu => if_neg (hall u hu))]
      exact List.map_id' db.users
    simp only [hmap]

/-- C3 amended, witness: verifying the pending user u1 of dbTwo succeeds
and afterwards u1 is stored as verified with qr_code QR1. -/
theorem verify_user_sets_verified_witness :
    { uPending with status := "verified", qr_code := some ("QR1") } ∈ dbTwoVerified.users :=
  ((verify_user_sets_verified dbTwo ("u1") ("QR1") (by decide)).2 dbTwoVerified rfl).1
    uPending (by decide) (by decide)

/-- C8: an admin call to delete_attendance always succeeds, even when no
row has the given id; exactly the rows with that id are removed, every
other row and the other tables are kept, and when no row matches the
database is unchanged. -/
theorem delete_attendance_permissive (db : DB) (aid : String) :
    (∃ db1, delete_attendance (some ("admin")) db aid = .ok db1) ∧
    (∀ db1, delete_attendance (some ("admin")) db aid = .ok db1 →
      ((∀ r ∈ db.attendance, ¬ r.id = aid → r ∈ db1.attendance) ∧
       (∀ r ∈ db1.attendance, r ∈ db.attendance ∧ ¬ r.id = aid) ∧
       db1.users = db.users ∧ db1.events = db.events ∧
       ((∀ r ∈ db.attendance, ¬ r.id = aid) → db1 = db))) := by
  have hrun : delete_attendance (some ("admin")) db aid =
      .ok { db with attendance := db.attendance.filter (fun r => ¬ r.id = aid) } := by
    unfold delete_attendance
    rw [if_neg (by simp)]
  refine ⟨⟨_, hrun⟩, fun db1 h1 => ?_⟩
  rw [hrun] at h1
  injection h1 with h1
  subst h1
  refine ⟨fun r hr hid => ?_, fun r hr => ?_, rfl, rfl, fun hall => ?_⟩
  · exact List.mem_filter.mpr ⟨hr, by simpa using hid⟩
  · have := List.mem_filter.mp hr
    exact ⟨this.1, by simpa using this.2⟩
  · have hfilter : db.attendance.filter (fun r => ¬ r.id = aid) = db.attendance :=
      List.filter_eq_self.mpr (fun r hr => by simpa using hall r hr)
    simp only [hfilter]

/-- C8 witness: deleting the absent id a9 from dbAtt succeeds and, since
no row carries that id, the database is unchanged. -/
theorem delete_attendance_permissive_witness :
    delete_attendance (some ("admin")) dbAtt ("a9") = Except.ok dbAtt := by
  have h := ((delete_attendance_permissive dbAtt ("a9")).2
    { dbAtt with attendance := dbAtt.attendance.filter (fun r => ¬ r.id = "a9") } rfl).2.2.2.2
    (by decide)
  rw [show delete_attendance (some ("admin")) dbAtt ("a9") =
    Except.ok { dbAtt with attendance := dbAtt.attendance.filter (fun r => ¬ r.id = "a9") }
    from rfl, h]

/-- C4: an admin deletion of an event removes exactly the attendance rows
referencing it and keeps the rest, and an admin deletion of a user removes
exactly the attendance rows referencing it as student and keeps the
rest. -/
theorem cascade_delete_attendance (db : DB) (eid uid : String) :
    (∃ db1, delete_event (some ("admin")) db eid = .ok db1) ∧
    (∀ db1, delete_event (some ("admin")) db eid = .ok db1 →
      ((∀ r ∈ db1.attendance, ¬ r.event_id = eid) ∧
       (∀ r ∈ db.attendance, ¬ r.event_id = eid → r ∈ db1.attendance) ∧
       (∀ r ∈ db1.attendance, r ∈ db.attendance))) ∧
    (∃ db1, delete_user (some ("admin")) db uid = .ok db1) ∧
    (∀ db1, delete_user (some ("admin")) db uid = .ok db1 →
      ((∀ r ∈ db1.attendance, ¬ r.student_id = uid) ∧
       (∀ r ∈ db.attendance, ¬ r.student_id = uid → r ∈ db1.attendance) ∧
       (∀ r ∈ db1.attendance, r ∈ db.attendance))) := by
  have hev : delete_event (some ("admin")) db eid =
      .ok { db with
              events := db.events.filter (fun e => ¬ e.id = eid),
              attendance := db.attendance.filter (fun r => ¬ r.event_id = eid) } := by
    unfold delete_event
    rw [if_neg (by simp)]
  have hus : delete_user (some ("admin")) db uid =
      .ok { db with
              users := db.users.filter (fun u => ¬ u.id = uid),
              attendance := db.attendance.filter (fun r => ¬ r.student_id = uid) } := by
    unfold delete_user
    rw [if_neg (by simp)]
  refine ⟨⟨_, hev⟩, fun db1 h1 => ?_, ⟨_, hus⟩, fun db1 h1 => ?_⟩
  · rw [hev] at h1
    injection h1 with h1
    subst h1
    refine ⟨fun r hr => ?_, fun r hr hne => ?_, fun r hr => ?_⟩
    · simpa using (List.mem_filter.mp hr).2
    · exact List.mem_filter.mpr ⟨hr, by simpa using hne⟩
    · exact (List.mem_filter.mp hr).1
  · rw [hus] at h1
    injection h1 with h1
    subst h1
    refine ⟨fun r hr => ?_, fun r hr hne => ?_, fun r hr => ?_⟩
    · simpa using (List.mem_filter.mp hr).2
    · exact List.mem_filter.mpr ⟨hr, by simpa using hne⟩
    · exact (List.mem_filter.mp hr).1

/-- C4 witness: after an admin deletes event e1 from dbAtt, no remaining
attendance row references e1, and the row for event e2 survives. -/
theorem cascade_delete_attendance_witness :
    (∀ r ∈ dbAttNoE1.attendance, ¬ r.event_id = "e1") ∧ recA2 ∈ dbAttNoE1.attendance := by
  have h := ((cascade_delete_attendance dbAtt ("e1") ("u2")).2.1 dbAttNoE1 rfl)
  exact ⟨h.1, h.2.1 recA2 (by decide) (by decide)⟩

/-- Justification that attendanceVerified, assumed by the claim about
marking unverified students, holds in every reachable state: each handler
that writes any table preserves it (and it holds in the empty initial
state).  The key cases: mark_attendance only inserts after finding a
verified student, verify_user only moves a status to verified, no handler
moves a status away from verified, and both deletions cascade. -/
theorem attendanceVerified_preserved (db : DB) (hinv : attendanceVerified db) :
    (∀ inp ni now db1, register db inp ni now = .ok db1 → attendanceVerified db1) ∧
    (∀ su sr uid p db1, update_user su sr db uid p = .ok db1 → attendanceVerified db1) ∧
    (∀ sr uid qr db1, verify_user sr db uid qr = .ok db1 → attendanceVerified db1) ∧
    (∀ sr uid nr db1, update_user_role sr db uid nr = .ok db1 → attendanceVerified db1) ∧
    (∀ sr uid db1, delete_user sr db uid = .ok db1 → attendanceVerified db1) ∧
    (∀ sr eid db1, delete_event sr db eid = .ok db1 → attendanceVerified db1) ∧
    (∀ sr eid sid ni now db1, mark_attendance sr db eid sid ni now = .ok db1 →
      attendanceVerified db1) ∧
    (∀ sr aid db1, delete_attendance sr db aid = .ok db1 → attendanceVerified db1) := by
  refine ⟨?_, ?_, ?_, ?_, ?_, ?_, ?_, ?_⟩
  · intro inp ni now db1 h
    unfold register at h
    repeat' split at h
    all_goals try exact Except.noConfusion h
    injection h with h
    subst h
    intro r hr
    obtain ⟨u, hu, hi, hs⟩ := hinv r hr
    exact ⟨u, List.mem_append_left _ hu, hi, hs⟩
  · intro su sr uid p db1 h
    unfold update_user at h
    repeat' split at h
    all_goals try exact Except.noConfusion h
    all_goals
      injection h with h
      subst h
      intro r hr
      obtain ⟨u, hu, hi, hs⟩ := hinv r hr
      refine ⟨_, List.mem_map_of_mem _ hu, ?_, ?_⟩
      · by_cases hui : u.id = uid
        · simp only [if_pos hui]
          exact hi
        · simp only [if_neg hui]
          exact hi
      · by_cases hui : u.id = uid
        · simp only [if_pos hui]
          exact hs
        · simp only [if_neg hui]
          exact hs
  · intro sr uid qr db1 h
    unfold verify_user at h
    repeat' split at h
    all_goals try exact Except.noConfusion h
    injection h with h
    subst h
    intro r hr
    obtain ⟨u, hu, hi, hs⟩ := hinv r hr
    refine ⟨_, List.mem_map_of_mem _ hu, ?_, ?_⟩
    · by_cases hui : u.id = uid
      · simp only [if_pos hui]
        exact hi
      · simp only [if_neg hui]
        exact hi
    · by_cases hui : u.id = uid
      · simp only [if_pos hui]
      · simp only [if_neg hui]
        exact hs
  · intro sr uid nr db1 h
    unfold update_user_role at h
    repeat' split at h
    all_goals try exact Except.noConfusion h
    injection h with h
    subst h
    intro r hr
    obtain ⟨u, hu, hi, hs⟩ := hinv r hr
    refine ⟨_, List.mem_map_of_mem _ hu, ?_, ?_⟩
    · by_cases hui : u.id = uid
      · simp only [if_pos hui]
        exact hi
      · simp only [if_neg hui]
        exact hi
    · by_cases hui : u.id = uid
      · simp only [if_pos hui]
        exact hs
      · simp only [if_neg hui]
        exact hs
  · intro sr uid db1 h
    unfold delete_user at h
    repeat' split at h
    all_goals try exact Except.noConfusion h
    injection h with h
    subst h
    intro r hr
    obtain ⟨hr0, hrs⟩ := List.mem_filter.mp hr
    obtain ⟨u, hu, hi, hs⟩ := hinv r hr0
    refine ⟨u, List.mem_filter.mpr ⟨hu, ?_⟩, hi, hs⟩
    simp only [decide_eq_true_eq] at hrs ⊢
    rw [hi]
    exact hrs
  · intro sr eid db1 h
    unfold delete_event at h
    repeat' split at h
    all_goals try exact Except.noConfusion h
    injection h with h
    subst h
    intro r hr
    exact hinv r (List.mem_filter.mp hr).1
  · intro sr eid sid ni now db1 h
    unfold mark_attendance at h
    split at h
    · exact Except.noConfusion h
    split at h
    · exact Except.noConfusion h
    split at h
    · exact Except.noConfusion h
    split at h
    · exact Except.noConfusion h
    · next student heq =>
      split at h
      · exact Except.noConfusion h
      · next hstatus =>
        split at h
        · exact Except.noConfusion h
        injection h with h
        subst h
        intro r hr
        rcases List.mem_append.mp hr with h1 | h2
        · obtain ⟨u, hu, hi, hs⟩ := hinv r h1
          exact ⟨u, hu, hi, hs⟩
        · rw [List.mem_singleton] at h2
          subst h2
          refine ⟨student, List.mem_of_find?_eq_some heq, ?_, not_not.mp hstatus⟩
          have h3 := List.find?_some heq
          simpa using h3
  · intro sr aid db1 h
    unfold delete_attendance at h
    repeat' split at h
    all_goals try exact Except.noConfusion h
    injection h with h
    subst h
    intro r hr
    exact hinv r (List.mem_filter.mp hr).1

/-- C1: an admin call to mark_attendance with truthy ids, in a state
satisfying the cross-table invariant attendanceVerified (which every
state the handlers can produce satisfies), whose student_id resolves to
no stored User or only to Users whose status is not verified, fails with
NotFoundError 404; the handler returns before the INSERT, so no
AttendanceRecord is added. -/
theorem mark_attendance_unverified_not_found (db : DB) (eid sid new_id now : String)
    (hinv : attendanceVerified db) (he : ¬ eid = "") (hs : ¬ sid = "")
    (hnv : ∀ u ∈ db.users, u.id = sid → ¬ u.status = "verified") :
    mark_attendance (some ("admin")) db eid sid new_id now =
      .error (.notFoundError ("Student not found or not verified")) := by
  unfold mark_attendance
  rw [if_neg (by simp), if_neg (not_or.mpr ⟨he, hs⟩)]
  have hconf : db.attendance.find? (fun r => r.event_id = eid ∧ r.student_id = sid) = none := by
    rw [List.find?_eq_none]
    intro r hr hpr
    obtain ⟨u, hu, hid, hst⟩ := hinv r hr
    simp only [decide_eq_true_eq] at hpr
    exact hnv u hu (by rw [hid, hpr.2]) hst
  rw [if_neg (by rw [hconf]; simp)]
  split
  · rfl
  · next student hfind =>
    have hmem := List.mem_of_find?_eq_some hfind
    have hpu := List.find?_some hfind
    simp only [decide_eq_true_eq] at hpu
    rw [if_pos (hnv student hmem hpu)]

/-- C1 witness: in dbTwo the student u1 is stored but pending, so an
admin mark of (e1, u1) answers 404 Student not found or not verified. -/
theorem mark_attendance_unverified_not_found_witness :
    mark_attendance (some ("admin")) dbTwo ("e1") ("u1") ("a1") ("t1") =
      .error (.notFoundError ("Student not found or not verified")) :=
  mark_attendance_unverified_not_found dbTwo ("e1") ("u1") ("a1") ("t1")
    (by decide) (by decide) (by decide) (by decide)

/-- C2: with truthy ids, no existing row for the pair, a fresh record id
and a student resolving to a verified User, the first admin call to
mark_attendance succeeds and the store then holds exactly one
AttendanceRecord for (event_id, student_id); a second call with identical
arguments fails with ConflictError 409 rather than succeeding silently,
and an error commits nothing, so exactly one row for the pair remains. -/
theorem mark_attendance_twice_conflict (db : DB) (eid sid id1 ts1 id2 ts2 : String)
    (he : ¬ eid = "") (hs : ¬ sid = "")
    (hstu : ∃ u, db.users.find? (fun x => x.id = sid) = some u ∧ u.status = "verified")
    (hnone : ∀ r ∈ db.attendance, ¬ (r.event_id = eid ∧ r.student_id = sid))
    (hfresh : ∀ r ∈ db.attendance, ¬ r.id = id1) :
    ∃ db1, mark_attendance (some ("admin")) db eid sid id1 ts1 = .ok db1 ∧
      db1.attendance.countP (fun r => r.event_id = eid ∧ r.student_id = sid) = 1 ∧
      mark_attendance (some ("admin")) db1 eid sid id2 ts2 =
        .error (.conflictError ("Attendance already marked")) := by
  obtain ⟨u, hfind, hust⟩ := hstu
  have hconf1 : db.attendance.find? (fun r => r.event_id = eid ∧ r.student_id = sid) = none :=
    List.find?_eq_none.mpr (fun r hr => by simpa using hnone r hr)
  have hfr : db.attendance.find? (fun r => r.id = id1) = none :=
    List.find?_eq_none.mpr (fun r hr => by simpa using hfresh r hr)
  have hrun1 : mark_attendance (some ("admin")) db eid sid id1 ts1 =
      .ok { db with attendance := db.attendance ++ [{
        id := id1, event_id := eid, student_id := sid,
        student_name := u.first_name ++ " " ++ u.last_name,
        student_photo := u.profile_photo, timestamp := ts1 }] } := by
    unfold mark_attendance
    rw [if_neg (by simp), if_neg (not_or.mpr ⟨he, hs⟩)]
    rw [if_neg (by rw [hconf1]; simp)]
    simp only [hfind]
    rw [if_neg (not_not_intro hust), if_neg (by rw [hfr]; simp)]
  refine ⟨_, hrun1, ?_, ?_⟩
  · rw [List.countP_append]
    have h0 : db.attendance.countP (fun r => r.event_id = eid ∧ r.student_id = sid) = 0 :=
      List.countP_eq_zero.mpr (fun r hr => by simpa using hnone r hr)
    rw [h0]
    simp [List.countP_cons]
  · unfold mark_attendance
    rw [if_neg (by simp), if_neg (not_or.mpr ⟨he, hs⟩)]
    rw [if_pos]
    rw [List.find?_isSome]
    refine ⟨_, List.mem_append_right _ (List.mem_singleton.mpr rfl), ?_⟩
    simp

/-- C2 witness: in dbTwo, marking (e1, u2) for the verified student u2
succeeds, one row for the pair is stored, and the identical second call
answers 409. -/
theorem mark_attendance_twice_conflict_witness :
    ∃ db1, mark_attendance (some ("admin")) dbTwo ("e1") ("u2") ("a1") ("t1") = .ok db1 ∧
      db1.attendance.countP (fun r => r.event_id = "e1" ∧ r.student_id = "u2") = 1 ∧
      mark_attendance (some ("admin")) db1 ("e1") ("u2") ("a2") ("t2") =
        .error (.conflictError ("Attendance already marked")) :=
  mark_attendance_twice_conflict dbTwo ("e1") ("u2") ("a1") ("t1") ("a2") ("t2")
    (by decide) (by decide) ⟨uVerified, by decide, by decide⟩ (by decide) (by decide)

/-- C5: in a state whose stored emails are lowercase (the invariant the
handlers' lowercasing writes maintain), a registration attempt passing
the field and password-length checks whose email, compared
case-insensitively, or student_id equals that of a stored User fails with
ConflictError 409; the handler returns before the INSERT, so the users
table gains no row. -/
theorem register_duplicate_conflict (db : DB) (inp : RegisterInput) (new_id now : String)
    (hlow : emailsLowercase db)
    (h1 : ¬ inp.student_id = "") (h2 : ¬ inp.first_name = "") (h3 : ¬ inp.last_name = "")
    (h4 : ¬ inp.email = "") (h5 : 6 ≤ inp.password.length)
    (hdup : (∃ u ∈ db.users, lowerStr u.email = lowerStr inp.email) ∨
            (∃ u ∈ db.users, u.student_id = some inp.student_id)) :
    ∃ m, register db inp new_id now = .error (.conflictError m) := by
  have hp : ¬ inp.password = "" := by
    intro h
    rw [h] at h5
    exact absurd h5 (by decide)
  have hlen : ¬ inp.password.length < 6 := by omega
  unfold register
  rw [if_neg h1, if_neg h2, if_neg h3, if_neg h4, if_neg hp, if_neg hlen]
  by_cases hem : (db.users.find? (fun u => u.email = lowerStr inp.email)).isSome = true
  · rw [if_pos hem]
    exact ⟨_, rfl⟩
  · rw [if_neg hem]
    have hsid : (db.users.find? (fun u => u.student_id = some inp.student_id)).isSome = true := by
      rcases hdup with ⟨u, hu, he⟩ | ⟨u, hu, hs⟩
      · exact absurd (List.find?_isSome.mpr ⟨u, hu, by
          simp only [decide_eq_true_eq]
          exact (hlow u hu).symm.trans he⟩) hem
      · exact List.find?_isSome.mpr ⟨u, hu, by
          simp only [decide_eq_true_eq]
          exact hs⟩
    rw [if_pos hsid]
    exact ⟨_, rfl⟩

/-- C5 witness: registering with email A@X.com, which differs from the
stored a@x.com only by case, is rejected with a ConflictError. -/
theorem register_duplicate_conflict_witness :
    ∃ m, register dbTwo
      { student_id := "S9", first_name := "Cy", last_name := "Doe",
        email := "A@X.com", password := "abcdef" } ("u9") ("t9") =
      .error (.conflictError m) :=
  register_duplicate_conflict dbTwo
    { student_id := "S9", first_name := "Cy", last_name := "Doe",
      email := "A@X.com", password := "abcdef" } ("u9") ("t9")
    (by decide) (by decide) (by decide) (by decide) (by decide) (by decide)
    (Or.inl ⟨uPending, by decide, by decide⟩)

/-- C6: for a user_id resolving to a stored User and a non-empty code, an
admin verify_user succeeds and a following admin get_user returns a
projection with status verified and qr_code equal to the code. -/
theorem verify_then_get_roundtrip (db : DB) (uid qr : String) (hqr : ¬ qr = "")
    (hstored : (db.users.find? (fun u => u.id = uid)).isSome = true) :
    ∃ db1 v, verify_user (some ("admin")) db uid (some qr) = .ok db1 ∧
      get_user none (some ("admin")) db1 uid = .ok v ∧
      v.status = "verified" ∧ v.qr_code = some qr := by
  obtain ⟨u, hfind⟩ := Option.isSome_iff_exists.mp hstored
  have hid : u.id = uid := by
    have h := List.find?_some hfind
    simpa using h
  have hrun : verify_user (some ("admin")) db uid (some qr) =
      .ok { db with users := db.users.map (fun x =>
        if x.id = uid then { x with status := "verified", qr_code := some qr } else x) } := by
    simp [verify_user, hqr]
  refine ⟨_, toProfile { u with status := "verified", qr_code := some qr }, hrun, ?_, rfl, rfl⟩
  unfold get_user
  rw [if_neg (by simp)]
  have hmap : (db.users.map (fun x =>
      if x.id = uid then { x with status := "verified", qr_code := some qr } else x)).find?
        (fun x => x.id = uid) =
      some { u with status := "verified", qr_code := some qr } := by
    rw [List.find?_map]
    have hcomp : ((fun x : User => decide (x.id = uid)) ∘ (fun x : User =>
        if x.id = uid then { x with status := "verified", qr_code := some qr } else x)) =
        fun x : User => decide (x.id = uid) := by
      funext x
      by_cases hx : x.id = uid
      · simp [hx]
      · simp [hx]
    rw [hcomp, hfind]
    simp [hid]
  simp only [hmap]

/-- C6 witness: verifying the stored pending user u1 of dbTwo with code
QR1 and then reading the profile yields status verified and qr_code
QR1. -/
theorem verify_then_get_roundtrip_witness :
    ∃ db1 v, verify_user (some ("admin")) dbTwo ("u1") (some ("QR1")) = .ok db1 ∧
      get_user none (some ("admin")) db1 ("u1") = .ok v ∧
      v.status = "verified" ∧ v.qr_code = some ("QR1") :=
  verify_then_get_roundtrip dbTwo ("u1") ("QR1") (by decide) (by decide)

theorem tsDesc_trans (a b c : AttendanceRecord) :
    tsDesc a b = true → tsDesc b c = true → tsDesc a c = true := by
  simp only [tsDesc, decide_eq_true_eq]
  exact fun hab hbc => le_trans hbc hab

theorem tsDesc_total (a b : AttendanceRecord) : (tsDesc a b || tsDesc b a) = true := by
  simp only [tsDesc, Bool.or_eq_true, decide_eq_true_eq]
  exact le_total _ _

theorem tsSorted_mergeSort (l : List AttendanceRecord) : tsSorted (l.mergeSort tsDesc) := by
  have h := List.sorted_mergeSort tsDesc_trans tsDesc_total l
  exact h.imp (fun hb => of_decide_eq_true hb)

/-- C7: get_attendance always returns records sorted by timestamp
descending; a truthy event_id filter selects exactly the records with
that event_id and makes the student_id parameter irrelevant; with no
truthy event_id, a truthy student_id selects exactly the records with
that student_id; with neither, all records are returned. -/
theorem get_attendance_filter_sorted (db : DB) (eo so : Option String) :
    tsSorted (get_attendance db eo so) ∧
    (∀ e, eo = some e → ¬ e = "" →
      ((get_attendance db eo so).Perm (db.attendance.filter (fun r => r.event_id = e)) ∧
       ∀ so2, get_attendance db eo so2 = get_attendance db eo so)) ∧
    (∀ s, truthy eo = false → so = some s → ¬ s = "" →
      (get_attendance db eo so).Perm (db.attendance.filter (fun r => r.student_id = s))) ∧
    (truthy eo = false → truthy so = false →
      (get_attendance db eo so).Perm db.attendance) := by
  refine ⟨?_, ?_, ?_, ?_⟩
  · unfold get_attendance
    exact tsSorted_mergeSort _
  · intro e heo hne
    subst heo
    have ht : truthy (some e) = true := by
      simp [truthy, hne]
    have hpred : (fun r : AttendanceRecord => decide (some r.event_id = some e)) =
        fun r : AttendanceRecord => decide (r.event_id = e) := by
      funext r
      simp
    constructor
    · have hrows : get_attendance db (some e) so =
          (db.attendance.filter (fun r => r.event_id = e)).mergeSort tsDesc := by
        unfold get_attendance
        rw [ht, hpred]
        simp
      rw [hrows]
      exact List.mergeSort_perm _ _
    · intro so2
      unfold get_attendance
      rw [ht]
      simp
  · intro s heo hso hns
    subst hso
    have ht : truthy (some s) = true := by
      simp [truthy, hns]
    have hpred : (fun r : AttendanceRecord => decide (some r.student_id = some s)) =
        fun r : AttendanceRecord => decide (r.student_id = s) := by
      funext r
      simp
    have hrows : get_attendance db eo (some s) =
        (db.attendance.filter (fun r => r.student_id = s)).mergeSort tsDesc := by
      unfold get_attendance
      rw [heo, ht, hpred]
      simp
    rw [hrows]
    exact List.mergeSort_perm _ _
  · intro heo hso
    have hrows : get_attendance db eo so = db.attendance.mergeSort tsDesc := by
      unfold get_attendance
      rw [heo, hso]
      simp
    rw [hrows]
    exact List.mergeSort_perm _ _

/-- C7 witness: filtering dbAtt by event e1 returns exactly the e1 rows
in timestamp-descending order, whatever student_id parameter rides
along. -/
theorem get_attendance_filter_sorted_witness :
    tsSorted (get_attendance dbAtt (some ("e1")) (some ("u2"))) ∧
    (get_attendance dbAtt (some ("e1")) (some ("u2"))).Perm
      (dbAtt.attendance.filter (fun r => r.event_id = "e1")) := by
  have h := get_attendance_filter_sorted dbAtt (some ("e1")) (some ("u2"))
  exact ⟨h.1, (h.2.1 ("e1") rfl (by decide)).1⟩

/-- C9: the invariant that every stored email is lowercase is preserved
by every users-table write — register, update_user (both lowercase the
supplied email before writing), verify_user, update_user_role and
delete_user (which never touch emails) — and login lowercases the
supplied email before its lookup, so lookups behave case-insensitively. -/
theorem emails_lowercase_preserved (db : DB) (hlow : emailsLowercase db) :
    (∀ inp new_id now db1, register db inp new_id now = .ok db1 → emailsLowercase db1) ∧
    (∀ su sr uid p db1, update_user su sr db uid p = .ok db1 → emailsLowercase db1) ∧
    (∀ sr uid qr db1, verify_user sr db uid qr = .ok db1 → emailsLowercase db1) ∧
    (∀ sr uid nr db1, update_user_role sr db uid nr = .ok db1 → emailsLowercase db1) ∧
    (∀ sr uid db1, delete_user sr db uid = .ok db1 → emailsLowercase db1) ∧
    (∀ email pw, login db email pw = login db (lowerStr email) pw) := by
  refine ⟨?_, ?_, ?_, ?_, ?_, ?_⟩
  · intro inp new_id now db1 h
    unfold register at h
    repeat' split at h
    all_goals try exact Except.noConfusion h
    injection h with h
    subst h
    intro u hu
    rcases List.mem_append.mp hu with h1 | h2
    · exact hlow u h1
    · rw [List.mem_singleton] at h2
      subst h2
      exact lowerStr_idem inp.email
  · intro su sr uid p db1 h
    unfold update_user at h
    repeat' split at h
    all_goals try exact Except.noConfusion h
    all_goals
      injection h with h
      subst h
      intro u hu
      obtain ⟨x, hx, rfl⟩ := List.mem_map.mp hu
      by_cases hxi : x.id = uid
      · rw [if_pos hxi]
        cases hpe : p.email with
        | none => simpa [applyPatch, hpe] using hlow x hx
        | some v => simp [applyPatch, hpe, lowerStr_idem]
      · rw [if_neg hxi]
        exact hlow x hx
  · intro sr uid qr db1 h
    unfold verify_user at h
    repeat' split at h
    all_goals try exact Except.noConfusion h
    injection h with h
    subst h
    intro u hu
    obtain ⟨x, hx, rfl⟩ := List.mem_map.mp hu
    by_cases hxi : x.id = uid
    · rw [if_pos hxi]
      exact hlow x hx
    · rw [if_neg hxi]
      exact hlow x hx
  · intro sr uid nr db1 h
    unfold update_user_role at h
    repeat' split at h
    all_goals try exact Except.noConfusion h
    injection h with h
    subst h
    intro u hu
    obtain ⟨x, hx, rfl⟩ := List.mem_map.mp hu
    by_cases hxi : x.id = uid
    · rw [if_pos hxi]
      exact hlow x hx
    · rw [if_neg hxi]
      exact hlow x hx
  · intro sr uid db1 h
    unfold delete_user at h
    repeat' split at h
    all_goals try exact Except.noConfusion h
    injection h with h
    subst h
    intro u hu
    exact hlow u (List.mem_filter.mp hu).1
  · intro email pw
    unfold login
    rw [lowerStr_idem]

/-- C9 witness: in dbTwo, whose stored emails are lowercase, logging in
with the mixed-case email A@X.com behaves exactly as with a@x.com. -/
theorem emails_lowercase_preserved_witness :
    login dbTwo ("A@X.com") ("secret1") = login dbTwo (lowerStr ("A@X.com")) ("secret1") :=
  (emails_lowercase_preserved dbTwo (by decide)).2.2.2.2.2 ("A@X.com") ("secret1")

theorem presentFields_drop (p : UserPatch) (pw : String) (hpw : p.password = some pw)
    (hshort : pw.length < 6) :
    presentFields { p with password := none } = presentFields p := by
  unfold presentFields
  rw [hpw]
  simp [decide_eq_false (Nat.not_le.mpr hshort)]

theorem applyPatch_drop (p : UserPatch) (pw : String) (hpw : p.password = some pw)
    (hshort : pw.length < 6) (u : User) :
    applyPatch { p with password := none } u = applyPatch p u := by
  unfold applyPatch
  rw [hpw]
  simp [if_neg (Nat.not_le.mpr hshort)]

/-- C10: in update_user a supplied password shorter than 6 characters is
silently dropped: the call behaves exactly as if the patch carried no
password; when it is the only supplied field the call fails with
ValidationError (No fields to update, 400), leaving the stored User
unchanged; and other supplied fields are still applied while the stored
password stays as it was. -/
theorem update_user_short_password (db : DB) (su sr : Option String) (uid : String)
    (p : UserPatch) (pw : String)
    (hauth : su = some uid ∨ sr = some ("admin"))
    (hpw : p.password = some pw) (hshort : pw.length < 6) :
    (p.first_name = none → p.last_name = none → p.email = none → p.profile_photo = none →
      update_user su sr db uid p = .error (.validationError ("No fields to update"))) ∧
    (update_user su sr db uid p = update_user su sr db uid { p with password := none }) ∧
    (∀ u fn, db.users = [u] → u.id = uid → p.first_name = some fn → p.email = none →
      ∃ db1, update_user su sr db uid p = .ok db1 ∧
        ∃ u1, db1.users = [u1] ∧ u1.first_name = fn ∧ u1.password = u.password) := by
  have hnauth : ¬ (su ≠ some uid ∧ sr ≠ some ("admin")) := by
    rcases hauth with h | h
    · exact fun hc => hc.1 h
    · exact fun hc => hc.2 h
  refine ⟨?_, ?_, ?_⟩
  · intro hf hl he hp
    unfold update_user
    rw [if_neg hnauth, if_pos]
    unfold presentFields
    rw [hf, hl, he, hp, hpw]
    simp [decide_eq_false (Nat.not_le.mpr hshort)]
  · unfold update_user
    rw [presentFields_drop p pw hpw hshort]
    simp only [applyPatch_drop p pw hpw hshort]
  · intro u fn hdb hid hfn hem
    unfold update_user
    rw [if_neg hnauth]
    have hpres : ¬ presentFields p = false := by
      unfold presentFields
      rw [hfn]
      simp
    rw [if_neg hpres, hem, hdb]
    refine ⟨_, rfl, applyPatch p u, ?_, ?_, ?_⟩
    · simp [hid]
    · simp [applyPatch, hfn]
    · simp [applyPatch, hpw, if_neg (Nat.not_le.mpr hshort)]

/-- C10 witness: with a patch carrying first_name Zed and the 3-character
password abc, update_user on u1 behaves exactly as with the password
dropped. -/
theorem update_user_short_password_witness :
    update_user (some ("u1")) none dbTwo ("u1")
      { first_name := some ("Zed"), last_name := none, email := none,
        password := some ("abc"), profile_photo := none } =
    update_user (some ("u1")) none dbTwo ("u1")
      { first_name := some ("Zed"), last_name := none, email := none,
        password := none, profile_photo := none } :=
  (update_user_short_password dbTwo (some ("u1")) none ("u1")
    { first_name := some ("Zed"), last_name := none, email := none,
      password := some ("abc"), profile_photo := none } ("abc")
    (Or.inl rfl) rfl (by decide)).2.1

end Hack
